import Mathlib

/-!
Shallow embedding of the AI mock-interview application.

Translated from the repository's TypeScript sources:
  * `types.ts` (src/unnamed/part_001): the data model (`AppState`,
    `InterviewConfig`, `EvaluationResult`, `InterviewSession`).
  * `App.tsx` (src/ai-mock-interview/App.tsx): the top-level component,
    with `startInterview`, `handleInterviewComplete` and `renderContent`.
  * `Interview.tsx` (src/unnamed/part_000): the live-capture component,
    with the recording toggle, snapshot/malpractice intervals, the speech
    recognition result handler and `handleNextQuestion`.
  * `Home.tsx` (src/ai-mock-interview/components/Home.tsx): the config form.

JavaScript objects indexed by question number (`{ [questionIndex: number]:
string[] }`) are embedded as association lists sorted by key (`NumMap`),
mirroring the ascending iteration order of integer keys in JS objects;
`undefined` lookups become `Option.none`. Sparse string arrays written by
index (`answersRef.current`) use the same representation. The asynchronous
API calls are embedded as explicit outcome parameters: a call either throws
(SDK error), returns unparsable text, or returns a parsed value.
-/

namespace MockInterview

/-- Association list sorted by numeric key: the embedding of a JS object
with integer keys (and of a sparse JS array written by index). -/
abbrev NumMap (α : Type) := List (Nat × α)

/-- Lookup: `obj[k]`, with `none` for `undefined`. -/
def NumMap.get {α : Type} : NumMap α → Nat → Option α
  | [], _ => none
  | (k', v') :: t, k => if k = k' then some v' else NumMap.get t k

/-- Assignment `obj[k] = v`, keeping keys in ascending order as JS object
integer keys iterate. -/
def NumMap.set {α : Type} : NumMap α → Nat → α → NumMap α
  | [], k, v => [(k, v)]
  | (k', v') :: t, k, v =>
    if k < k' then (k, v) :: (k', v') :: t
    else if k = k' then (k, v) :: t
    else (k', v') :: NumMap.set t k v

/-- `Object.values(obj)` in key order. -/
def NumMap.values {α : Type} (m : NumMap α) : List α := m.map Prod.snd

/-- The idiom `if (!obj[k]) obj[k] = []; obj[k].push(v)`. -/
def NumMap.push {α : Type} (m : NumMap (List α)) (k : Nat) (v : α) : NumMap (List α) :=
  m.set k ((m.get k).getD [] ++ [v])

/-- The JS expression `x || d` for a string-or-undefined `x`: both
`undefined` and the empty string are falsy. -/
def jsStringOr (x : Option String) (d : String) : String :=
  match x with
  | none => d
  | some s => if s = "" then d else s

/-! Data model, from `types.ts`. -/

/-- `export type AppState = 'HOME' | 'INTERVIEW' | 'REPORT' | 'LOADING'`. -/
inductive AppState where
  | HOME
  | INTERVIEW
  | REPORT
  | LOADING
deriving DecidableEq, Repr

/-- `InterviewConfig`. -/
structure InterviewConfig where
  role : String
  difficulty : String
deriving DecidableEq, Repr

/-- `EvaluationCriterion`. -/
structure EvaluationCriterion where
  name : String
  score : Int
  maxScore : Int
  reasoning : String
deriving DecidableEq, Repr

/-- `EvaluationResult`. -/
structure EvaluationResult where
  overallScore : Int
  criteria : List EvaluationCriterion
  strengths : List String
  weaknesses : List String
  improvements : List String
  bodyLanguageFeedback : String
deriving DecidableEq, Repr

/-- `InterviewSession`; `malpracticeLogs` and `evaluation` are optional
fields of the TS interface. -/
structure InterviewSession where
  config : InterviewConfig
  questions : List String
  answers : NumMap String
  snapshots : NumMap (List String)
  malpracticeLogs : Option (NumMap (List String))
  evaluation : Option EvaluationResult
deriving DecidableEq, Repr

/-! Content parts of a generative-language request (`App.tsx` lines 81-101). -/

/-- One element of the `parts` array: a text part or an inline image part. -/
inductive Part where
  | text (s : String)
  | inlineData (mimeType : String) (data : String)
deriving DecidableEq, Repr

/-- The header text pushed for question `index`
(template literal at `App.tsx` line 86). -/
def questionHeader (index : Nat) (question : String) : String :=
  "\n--- Question " ++ toString (index + 1) ++ ": " ++ question ++ " ---\n"

/-- The answer text pushed for question `index` (`App.tsx` line 87):
`answers[index] || '(No answer provided)'` inside the template. -/
def answerLine (answers : NumMap String) (index : Nat) : String :=
  "Candidate's Answer: \"" ++ jsStringOr (answers.get index) "(No answer provided)" ++ "\"\n"

/-- The parts pushed for the snapshots of question `index`
(`App.tsx` lines 89-100): one inline JPEG part per snapshot when
`snapshots[index]?.length > 0`, else the single text part. -/
def snapshotParts (snapshots : NumMap (List String)) (index : Nat) : List Part :=
  if ((snapshots.get index).getD []).length > 0 then
    ((snapshots.get index).getD []).map (fun base64Image => Part.inlineData "image/jpeg" base64Image)
  else
    [Part.text "(No snapshots available)\n"]

/-- The full `parts` array assembled by `handleInterviewComplete`
(`App.tsx` lines 81-101): the opening text part, then for each question the
header, the answer, the body-language caption and the snapshot parts. -/
def buildEvaluationParts (questions : List String) (answers : NumMap String)
    (snapshots : NumMap (List String)) : List Part :=
  Part.text "Begin Evaluation:\n" ::
    questions.enum.flatMap (fun p =>
      Part.text (questionHeader p.1 p.2) ::
      Part.text (answerLine answers p.1) ::
      Part.text "Body Language Snapshots during answer:\n" ::
      snapshotParts snapshots p.1)

/-! JSON serialization of the malpractice logs:
`JSON.stringify(malpracticeLogs, null, 2)` on an object whose keys are
question indices and whose values are arrays of strings. -/

/-- Lowercase hexadecimal digit. -/
def hexDigit (n : Nat) : String :=
  if n = 0 then "0" else if n = 1 then "1" else if n = 2 then "2"
  else if n = 3 then "3" else if n = 4 then "4" else if n = 5 then "5"
  else if n = 6 then "6" else if n = 7 then "7" else if n = 8 then "8"
  else if n = 9 then "9" else if n = 10 then "a" else if n = 11 then "b"
  else if n = 12 then "c" else if n = 13 then "d" else if n = 14 then "e"
  else "f"

/-- JSON escaping of one character, as `JSON.stringify` performs it. -/
def jsonEscapeChar (c : Char) : String :=
  if c = '"' then "\\\""
  else if c = '\\' then "\\\\"
  else if c = Char.ofNat 8 then "\\b"
  else if c = Char.ofNat 9 then "\\t"
  else if c = Char.ofNat 10 then "\\n"
  else if c = Char.ofNat 12 then "\\f"
  else if c = Char.ofNat 13 then "\\r"
  else if c.toNat < 32 then "\\u00" ++ hexDigit (c.toNat / 16) ++ hexDigit (c.toNat % 16)
  else String.singleton c

/-- JSON string literal. -/
def jsonString (s : String) : String :=
  "\"" ++ String.join (s.toList.map jsonEscapeChar) ++ "\""

/-- A string array at indent level 2 (inside a top-level object serialized
with indent step 2): `[]` when empty, else one line per element. -/
def jsonStringArray (l : List String) : String :=
  match l with
  | [] => "[]"
  | _ =>
    "[\n" ++ String.intercalate ",\n" (l.map (fun s => "    " ++ jsonString s)) ++ "\n  ]"

/-- `JSON.stringify(logs, null, 2)`: the logs object with its integer keys
in ascending order (the `NumMap` order). -/
def jsonStringifyLogs (logs : NumMap (List String)) : String :=
  match logs with
  | [] => "\x7b\x7d"
  | _ =>
    "\x7b\n" ++
      String.intercalate ",\n"
        (logs.map (fun p => "  " ++ jsonString (toString p.1) ++ ": " ++ jsonStringArray p.2)) ++
      "\n\x7d"

/-! The top-level App component (`App.tsx`). -/

/-- The React state of `App`: `appState`, `session`, `loadingMessage`,
`error`. -/
structure AppModel where
  appState : AppState
  session : Option InterviewSession
  loadingMessage : String
  error : Option String
deriving DecidableEq, Repr

/-- The initial `useState` values of `App`. -/
def initialAppModel : AppModel :=
  { appState := AppState.HOME, session := none, loadingMessage := "", error := none }

/-- Outcome of the question-generation call in `startInterview`: the SDK
call throws, `JSON.parse` throws, or parsing yields an object whose
`questions` field is absent (`none`) or a string array. -/
inductive GenQuestionsOutcome where
  | sdkError
  | parseError
  | parsed (questions : Option (List String))
deriving DecidableEq, Repr

/-- The request `contents` string of `startInterview` (`App.tsx` line 24). -/
def questionPrompt (config : InterviewConfig) : String :=
  "Generate 5 interview questions for a " ++ config.difficulty ++ " " ++ config.role ++ " position."

/-- The synchronous prefix of `startInterview` (`App.tsx` lines 17-19),
which the component is left in while the generation call is pending. -/
def startInterviewLoading (s : AppModel) : AppModel :=
  { s with appState := AppState.LOADING,
           loadingMessage := "Generating your interview questions...",
           error := none }

/-- The catch-branch message of `startInterview` (`App.tsx` line 56). -/
def genQuestionsFailureMessage : String :=
  "Could not generate questions. Please check your API key and try again."

/-- `startInterview` (`App.tsx` lines 16-59), as a function of the call's
outcome: failures (a throw, an unparsable response, a missing or empty
`questions` array) land in the catch branch; success stores a fresh
session and enters the interview. -/
def startInterview (s : AppModel) (config : InterviewConfig)
    (outcome : GenQuestionsOutcome) : AppModel :=
  let s0 := startInterviewLoading s
  match outcome with
  | GenQuestionsOutcome.sdkError =>
      { s0 with error := some genQuestionsFailureMessage, appState := AppState.HOME }
  | GenQuestionsOutcome.parseError =>
      { s0 with error := some genQuestionsFailureMessage, appState := AppState.HOME }
  | GenQuestionsOutcome.parsed none =>
      { s0 with error := some genQuestionsFailureMessage, appState := AppState.HOME }
  | GenQuestionsOutcome.parsed (some []) =>
      { s0 with error := some genQuestionsFailureMessage, appState := AppState.HOME }
  | GenQuestionsOutcome.parsed (some (q :: qs)) =>
      { s0 with
          session := some
            { config := config, questions := q :: qs, answers := [],
              snapshots := [], malpracticeLogs := some [], evaluation := none },
          appState := AppState.INTERVIEW }

/-- The optional malpractice suffix of the system instruction
(`App.tsx` lines 67-69): the fixed analysis request followed by the
JSON-serialized logs when some log array is non-empty, else empty. -/
def malpracticeExtraHeader : String :=
  "\n\nAdditionally, analyze the following malpractice logs. The candidate was alerted in real-time. Factor any detected malpractice into the overall evaluation, particularly in the 'Weaknesses' and 'Overall Score' sections.\nMalpractice Logs:\n"

/-- `malpracticeLogText` (`App.tsx` lines 67-69). -/
def malpracticeLogText (malpracticeLogs : NumMap (List String)) : String :=
  if malpracticeLogs.values.any (fun logs => decide (logs.length > 0)) then
    malpracticeExtraHeader ++ jsonStringifyLogs malpracticeLogs
  else ""

/-- The base template of `systemInstruction` (`App.tsx` lines 71-79)
before `malpracticeLogText` is appended. -/
def baseSystemInstruction (config : InterviewConfig) : String :=
  "You are an expert interviewer evaluating a candidate for a " ++ config.difficulty ++ " " ++ config.role ++ " role. Analyze the following questions, the candidate's transcribed answers, and snapshots of their body language. Provide a comprehensive evaluation in JSON format.\n\n        The JSON object should have the following structure:\n        - overallScore: A number from 0 to 100.\n        - criteria: An array of objects, each with 'name' (e.g., \"Clarity\", \"Technical Depth\", \"Problem Solving\", \"Communication\", \"Body Language\"), 'score' (0-5), 'maxScore' (always 5), and 'reasoning' (a brief justification for the score).\n        - strengths: An array of strings highlighting what the candidate did well.\n        - weaknesses: An array of strings pointing out areas of concern.\n        - improvements: An array of strings with actionable advice.\n        - bodyLanguageFeedback: A paragraph summarizing their non-verbal cues from the images."

/-- `systemInstruction` (`App.tsx` lines 71-79): the base template with the
malpractice suffix interpolated at its end. -/
def systemInstruction (config : InterviewConfig)
    (malpracticeLogs : NumMap (List String)) : String :=
  baseSystemInstruction config ++ malpracticeLogText malpracticeLogs

/-- Outcome of the evaluation call in `handleInterviewComplete`: the SDK
call throws, `JSON.parse` throws, or an `EvaluationResult` is parsed. -/
inductive EvalOutcome where
  | sdkError
  | parseError
  | parsed (result : EvaluationResult)
deriving DecidableEq, Repr

/-- The catch-branch message of `handleInterviewComplete`
(`App.tsx` line 149). -/
def evalFailureMessage : String :=
  "An error occurred during evaluation. Please try another interview."

/-- `handleInterviewComplete` (`App.tsx` lines 61-153), as a function of
the evaluation call's outcome. With no session nothing runs; otherwise the
loading state is entered, and the call's outcome either stores the
evaluated session and enters the report, or lands in the catch branch. -/
def handleInterviewComplete (s : AppModel) (answers : NumMap String)
    (snapshots : NumMap (List String)) (malpracticeLogs : NumMap (List String))
    (outcome : EvalOutcome) : AppModel :=
  match s.session with
  | none => s
  | some sess =>
    let s0 := { s with appState := AppState.LOADING,
                       loadingMessage := "Evaluating your performance... This may take a moment.",
                       error := none }
    match outcome with
    | EvalOutcome.parsed result =>
        { s0 with
            session := some
              { sess with answers := answers, snapshots := snapshots,
                          malpracticeLogs := some malpracticeLogs,
                          evaluation := some result },
            appState := AppState.REPORT }
    | EvalOutcome.sdkError =>
        { s0 with error := some evalFailureMessage, appState := AppState.HOME }
    | EvalOutcome.parseError =>
        { s0 with error := some evalFailureMessage, appState := AppState.HOME }

/-- What `renderContent` returns: which screen is rendered, with the data
that screen receives. -/
inductive Screen where
  | homeScreen (error : Option String)
  | loadingScreen (message : String)
  | interviewScreen (questions : List String)
  | reportScreen (report : EvaluationResult)
deriving DecidableEq, Repr

/-- `renderContent` (`App.tsx` lines 161-185). In `INTERVIEW`,
`session?.questions` is truthy exactly when a session exists (a JS array is
always truthy); in `REPORT`, `session?.evaluation` is truthy exactly when a
session exists and carries an evaluation. -/
def renderContent (s : AppModel) : Screen :=
  match s.appState with
  | AppState.HOME => Screen.homeScreen s.error
  | AppState.LOADING => Screen.loadingScreen s.loadingMessage
  | AppState.INTERVIEW =>
    match s.session with
    | some sess => Screen.interviewScreen sess.questions
    | none => Screen.homeScreen (some "An unexpected error occurred.")
  | AppState.REPORT =>
    match s.session with
    | some sess =>
      match sess.evaluation with
      | some e => Screen.reportScreen e
      | none => Screen.homeScreen (some "Failed to load the report.")
    | none => Screen.homeScreen (some "Failed to load the report.")

/-- The three screens the spec names (home/config, live interview capture,
report); the loading spinner is none of them. -/
def Screen.isOneOfThreeScreens : Screen → Bool
  | Screen.homeScreen _ => true
  | Screen.interviewScreen _ => true
  | Screen.reportScreen _ => true
  | Screen.loadingScreen _ => false

/-! The Home component (`Home.tsx`). -/

/-- Initial `role` state of the Home form. -/
def homeInitialRole : String := "Software Engineer"

/-- Initial `difficulty` state of the Home form. -/
def homeInitialDifficulty : String := "Medium"

/-- `handleSubmit` (`Home.tsx` lines 14-17): the config passed to
`onStartInterview` from the current form state. -/
def handleSubmit (role : String) (difficulty : String) : InterviewConfig :=
  { role := role, difficulty := difficulty }

/-! The Interview component (`Interview.tsx`, src/unnamed/part_000). -/

/-- The state of the Interview component: the React state
(`currentQuestionIndex`, `transcript`, `isRecording`, `malpracticeAlert`),
the refs holding collected data (`answersRef`, `snapshotsRef`,
`malpracticeLogsRef`), and the interval refs, each holding the installed
period in milliseconds or `none`. -/
structure InterviewState where
  currentQuestionIndex : Nat
  transcript : String
  isRecording : Bool
  malpracticeAlert : Option String
  answers : NumMap String
  snapshots : NumMap (List String)
  malpracticeLogs : NumMap (List String)
  snapshotInterval : Option Nat
  malpracticeCheckInterval : Option Nat
deriving DecidableEq, Repr

/-- The initial state on mount. -/
def initialInterviewState : InterviewState :=
  { currentQuestionIndex := 0, transcript := "", isRecording := false,
    malpracticeAlert := none, answers := [], snapshots := [],
    malpracticeLogs := [], snapshotInterval := none,
    malpracticeCheckInterval := none }

/-- `captureSnapshot` (lines 150-165): the captured JPEG is pushed onto the
current question's snapshot list. -/
def captureSnapshot (s : InterviewState) (image : String) : InterviewState :=
  { s with snapshots := s.snapshots.push s.currentQuestionIndex image }

/-- `handleToggleRecording` (lines 167-186): stopping clears both intervals
and the alert; starting resets the current answer, log list and transcript,
and installs the 5000 ms snapshot interval and the 8000 ms malpractice
check interval. -/
def handleToggleRecording (s : InterviewState) : InterviewState :=
  if s.isRecording then
    { s with isRecording := false, snapshotInterval := none,
             malpracticeCheckInterval := none, malpracticeAlert := none }
  else
    { s with answers := s.answers.set s.currentQuestionIndex "",
             malpracticeLogs := s.malpracticeLogs.set s.currentQuestionIndex [],
             transcript := "", malpracticeAlert := none, isRecording := true,
             snapshotInterval := some 5000,
             malpracticeCheckInterval := some 8000 }

/-- One loop step of `recognition.onresult` (lines 101-111): a final result
is appended to the final transcript with a trailing space, a non-final one
overwrites the interim transcript. The loop state is the pair
`(finalTranscript, interimTranscript)`; a result is `(isFinal, transcript)`
of its first alternative. -/
def collectStep (acc : String × String) (r : Bool × String) : String × String :=
  if r.1 then (acc.1 ++ r.2 ++ " ", acc.2) else (acc.1, r.2)

/-- The whole `onresult` loop over `event.results` from index 0. -/
def collectTranscripts (results : List (Bool × String)) : String × String :=
  results.foldl collectStep ("", "")

/-- `recognition.onresult` (lines 101-114): stores the trimmed final
transcript as the current answer and displays it followed by the interim
part. -/
def onSpeechResult (s : InterviewState) (results : List (Bool × String)) : InterviewState :=
  let finalTranscript := (collectTranscripts results).1
  let interimTranscript := (collectTranscripts results).2
  { s with answers := s.answers.set s.currentQuestionIndex finalTranscript.trim,
           transcript := finalTranscript.trim ++ " " ++ interimTranscript }

/-- The effect of one parsed `analyzeFrameForMalpractice` response
(lines 76-84): when a phone or suspicious gaze is detected the reason is
shown as an alert and pushed onto the current question's log list. -/
def onMalpracticeResult (s : InterviewState) (phoneDetected : Bool)
    (suspiciousGaze : Bool) (reason : String) : InterviewState :=
  if phoneDetected || suspiciousGaze then
    { s with malpracticeAlert := some reason,
             malpracticeLogs := s.malpracticeLogs.push s.currentQuestionIndex reason }
  else s

/-- The arguments of a call to `onInterviewComplete` (line 202). -/
structure CompleteCall where
  answers : NumMap String
  snapshots : NumMap (List String)
  malpracticeLogs : NumMap (List String)
deriving DecidableEq, Repr

/-- `handleNextQuestion` (lines 188-204): stop recording if on, store the
trimmed transcript as the current answer, clear the transcript; then either
advance to the next question or, on the last question, call
`onInterviewComplete` with the collected refs. -/
def handleNextQuestion (questions : List String) (s : InterviewState) :
    InterviewState × Option CompleteCall :=
  let s1 := if s.isRecording then handleToggleRecording s else s
  let s2 := { s1 with answers := s1.answers.set s1.currentQuestionIndex s1.transcript.trim }
  let s3 := { s2 with transcript := "" }
  if s3.currentQuestionIndex < questions.length - 1 then
    ({ s3 with currentQuestionIndex := s3.currentQuestionIndex + 1 }, none)
  else
    (s3, some { answers := s3.answers, snapshots := s3.snapshots,
                malpracticeLogs := s3.malpracticeLogs })

/-- The events that drive the Interview component: the record button, a
snapshot-interval tick, a malpractice-interval tick (with the parsed
detection result), a speech-recognition result, and the next-question
button. An interval tick can only fire while its interval is installed. -/
inductive InterviewEvent where
  | toggleRecording
  | snapshotTick (image : String)
  | malpracticeTick (phoneDetected : Bool) (suspiciousGaze : Bool) (reason : String)
  | speechResult (results : List (Bool × String))
  | nextQuestion
deriving DecidableEq, Repr

/-- One step of the Interview component: the state after the event and the
`onInterviewComplete` call it makes, when any. A tick of a cleared interval
does nothing. -/
def interviewStep (questions : List String) (s : InterviewState) :
    InterviewEvent → InterviewState × Option CompleteCall
  | InterviewEvent.toggleRecording => (handleToggleRecording s, none)
  | InterviewEvent.snapshotTick image =>
      (if s.snapshotInterval.isSome then captureSnapshot s image else s, none)
  | InterviewEvent.malpracticeTick phoneDetected suspiciousGaze reason =>
      (if s.malpracticeCheckInterval.isSome then
        onMalpracticeResult s phoneDetected suspiciousGaze reason
       else s, none)
  | InterviewEvent.speechResult results => (onSpeechResult s results, none)
  | InterviewEvent.nextQuestion => handleNextQuestion questions s

/-- The states the Interview component can be in: the mount state and
everything reachable from it by events. -/
inductive InterviewReachable (questions : List String) : InterviewState → Prop where
  | init : InterviewReachable questions initialInterviewState
  | step {s : InterviewState} (e : InterviewEvent) :
      InterviewReachable questions s →
      InterviewReachable questions (interviewStep questions s e).1

/-! Claim-side comparison definitions: sequences written out the way the
specification describes them, to be compared with the assembled ones. -/

/-- The parts the specification lists for one question: the header with the
question's number and text, the answer (or placeholder) part, then the
snapshot parts — without the body-language caption the code also pushes. -/
def claimedQuestionParts (answers : NumMap String) (snapshots : NumMap (List String))
    (index : Nat) (question : String) : List Part :=
  Part.text (questionHeader index question) ::
  Part.text (answerLine answers index) ::
  snapshotParts snapshots index

/-- The per-question sequence the specification describes, for each
question in index order. -/
def claimedEvaluationParts (questions : List String) (answers : NumMap String)
    (snapshots : NumMap (List String)) : List Part :=
  questions.enum.flatMap (fun p => claimedQuestionParts answers snapshots p.1 p.2)

/-- A question-generation outcome that lands in the catch branch: a thrown
SDK error, an unparsable response, or a parsed response whose `questions`
field is missing or empty. -/
def GenQuestionsOutcome.isFailure : GenQuestionsOutcome → Bool
  | GenQuestionsOutcome.parsed (some (_ :: _)) => false
  | _ => true

/-- An evaluation outcome that lands in the catch branch: a thrown SDK
error or an unparsable response. -/
def EvalOutcome.isFailure : EvalOutcome → Bool
  | EvalOutcome.parsed _ => false
  | _ => true

/-- Concatenation of a list of strings. -/
def joinParts (l : List String) : String :=
  l.foldr (fun s acc => s ++ acc) ""

/-- The specification's description of the stored answer: the concatenation
of all finalized transcript parts, each followed by a space, then trimmed. -/
def claimedFinalText (results : List (Bool × String)) : String :=
  (joinParts ((results.filter (fun r => r.1)).map (fun r => r.2 ++ " "))).trim

/-- The specification's description of the interim text: the latest
non-final transcript part, empty when there is none. -/
def claimedLatestInterim (results : List (Bool × String)) : String :=
  ((results.filter (fun r => !r.1)).map (fun r => r.2)).getLastD ""

/-- The intervals of the Interview component match its recording flag: the
5000 ms snapshot interval and the 8000 ms malpractice interval are
installed exactly while recording. -/
def intervalsMatchRecording (s : InterviewState) : Prop :=
  s.snapshotInterval = (if s.isRecording then some 5000 else none) ∧
  s.malpracticeCheckInterval = (if s.isRecording then some 8000 else none)

/-! Sample data for concrete witnesses. -/

/-- A concrete parsed evaluation. -/
def sampleEvaluation : EvaluationResult :=
  { overallScore := 80, criteria := [], strengths := ["clear answers"],
    weaknesses := [], improvements := [], bodyLanguageFeedback := "calm" }

/-- A concrete session as `startInterview` stores it. -/
def sampleSession : InterviewSession :=
  { config := { role := "Software Engineer", difficulty := "Medium" },
    questions := ["Tell me about yourself."], answers := [], snapshots := [],
    malpracticeLogs := some [], evaluation := none }

/-- The app mid-interview with `sampleSession`. -/
def sampleAppModel : AppModel :=
  { appState := AppState.INTERVIEW, session := some sampleSession,
    loadingMessage := "", error := none }

/-- The app in state `REPORT` with an evaluation in the session. -/
def sampleReportModel : AppModel :=
  { appState := AppState.REPORT,
    session := some { sampleSession with evaluation := some sampleEvaluation },
    loadingMessage := "", error := none }

/-- The app in state `REPORT` whose session has no evaluation. -/
def sampleReportModelNoEvaluation : AppModel :=
  { appState := AppState.REPORT, session := some sampleSession,
    loadingMessage := "", error := none }

/-! Helper lemmas. -/

theorem NumMap.get_set {α : Type} (m : NumMap α) (k : Nat) (v : α) :
    (m.set k v).get k = some v := by
  induction m with
  | nil => simp [NumMap.set, NumMap.get]
  | cons h t ih =>
    by_cases h1 : k < h.1
    · simp [NumMap.set, NumMap.get, h1]
    · by_cases h2 : k = h.1
      · simp [NumMap.set, NumMap.get, h1, h2]
      · simp [NumMap.set, NumMap.get, h1, h2, ih]

theorem flatMap_sublist {α β : Type} (l : List α) (f g : α → List β)
    (h : ∀ a, List.Sublist (f a) (g a)) :
    List.Sublist (l.flatMap f) (l.flatMap g) := by
  induction l with
  | nil => simp
  | cons a t ih => simpa using List.Sublist.append (h a) ih

theorem collect_fst (l : List (Bool × String)) :
    ∀ a b : String, (l.foldl collectStep (a, b)).1 =
      a ++ joinParts ((l.filter (fun r => r.1)).map (fun r => r.2 ++ " ")) := by
  induction l with
  | nil => intro a b; simp [joinParts]
  | cons r t ih =>
    intro a b
    cases hr : r.1 with
    | true =>
      simp only [List.foldl_cons, collectStep, hr, if_true]
      rw [ih]
      simp [hr, joinParts, String.append_assoc]
    | false =>
      simp only [List.foldl_cons, collectStep, hr, Bool.false_eq_true, if_false]
      rw [ih]
      simp [hr]

theorem collect_snd (l : List (Bool × String)) :
    ∀ a b : String, (l.foldl collectStep (a, b)).2 =
      ((l.filter (fun r => !r.1)).map (fun r => r.2)).getLastD b := by
  induction l with
  | nil => intro a b; simp
  | cons r t ih =>
    intro a b
    cases hr : r.1 with
    | true =>
      simp only [List.foldl_cons, collectStep, hr, if_true]
      rw [ih]
      simp [hr]
    | false =>
      simp only [List.foldl_cons, collectStep, hr, Bool.false_eq_true, if_false]
      rw [ih]
      simp only [List.filter_cons, hr, Bool.not_false, if_true, List.map_cons,
        List.getLastD_cons]

theorem handleToggleRecording_index (s : InterviewState) :
    (handleToggleRecording s).currentQuestionIndex = s.currentQuestionIndex := by
  unfold handleToggleRecording
  split <;> rfl

theorem handleToggleRecording_snapshots (s : InterviewState) :
    (handleToggleRecording s).snapshots = s.snapshots := by
  unfold handleToggleRecording
  split <;> rfl

theorem reachable_intervals {questions : List String} {s : InterviewState}
    (h : InterviewReachable questions s) : intervalsMatchRecording s := by
  induction h with
  | init => simp [intervalsMatchRecording, initialInterviewState]
  | step e _ ih =>
    rename_i t _
    cases e with
    | toggleRecording =>
      cases hrec : t.isRecording <;>
        simp [interviewStep, handleToggleRecording, intervalsMatchRecording, hrec]
    | snapshotTick image =>
      simp only [interviewStep]
      split
      · simpa [captureSnapshot, intervalsMatchRecording] using ih
      · exact ih
    | malpracticeTick phoneDetected suspiciousGaze reason =>
      simp only [interviewStep]
      split
      · unfold onMalpracticeResult
        split
        · simpa [intervalsMatchRecording] using ih
        · exact ih
      · exact ih
    | speechResult results =>
      simpa [interviewStep, onSpeechResult, intervalsMatchRecording] using ih
    | nextQuestion =>
      cases hrec : t.isRecording with
      | true =>
        simp only [interviewStep, handleNextQuestion, handleToggleRecording, hrec, if_true]
        split <;> simp [intervalsMatchRecording]
      | false =>
        obtain ⟨ih1, ih2⟩ := ih
        rw [hrec] at ih1 ih2
        simp only [if_false, Bool.false_eq_true] at ih1 ih2
        simp only [interviewStep, handleNextQuestion, hrec, Bool.false_eq_true, if_false]
        split <;> simp [intervalsMatchRecording, hrec, ih1, ih2]

theorem reachable_index {questions : List String} {s : InterviewState}
    (hne : questions ≠ []) (h : InterviewReachable questions s) :
    s.currentQuestionIndex < questions.length := by
  induction h with
  | init => simpa [initialInterviewState] using List.length_pos.mpr hne
  | step e _ ih =>
    rename_i t _
    cases e with
    | toggleRecording =>
      simpa [interviewStep, handleToggleRecording_index] using ih
    | snapshotTick image =>
      simp only [interviewStep]
      split
      · simpa [captureSnapshot] using ih
      · exact ih
    | malpracticeTick phoneDetected suspiciousGaze reason =>
      simp only [interviewStep]
      split
      · unfold onMalpracticeResult
        split
        · simpa using ih
        · exact ih
      · exact ih
    | speechResult results =>
      simpa [interviewStep, onSpeechResult] using ih
    | nextQuestion =>
      have hlen : 1 ≤ questions.length := List.length_pos.mpr hne
      cases hrec : t.isRecording with
      | true =>
        simp only [interviewStep, handleNextQuestion, handleToggleRecording, hrec, if_true]
        split
        · next hlt =>
            have hgoal : t.currentQuestionIndex + 1 < questions.length := by omega
            exact hgoal
        · simpa using ih
      | false =>
        simp only [interviewStep, handleNextQuestion, hrec, Bool.false_eq_true, if_false]
        split
        · next hlt =>
            have hgoal : t.currentQuestionIndex + 1 < questions.length := by omega
            exact hgoal
        · simpa using ih

/-! The claims. -/

/-- C1: the evaluation request assembled by `handleInterviewComplete`
contains, for each question in order (index 0 to length - 1), a text part
with the question's number and text, a text part with the candidate's
answer (the placeholder `(No answer provided)` when the answer at that
index is missing or empty), followed by one inline JPEG part per captured
snapshot when that question's snapshot list is non-empty and by the single
text part `(No snapshots available)` otherwise. -/
theorem evaluation_request_contains_question_parts (questions : List String)
    (answers : NumMap String) (snapshots : NumMap (List String)) :
    List.Sublist (claimedEvaluationParts questions answers snapshots)
      (buildEvaluationParts questions answers snapshots) := by
  unfold claimedEvaluationParts buildEvaluationParts
  refine List.Sublist.cons _ (flatMap_sublist _ _ _ ?_)
  intro p
  unfold claimedQuestionParts
  exact List.Sublist.cons₂ _ (List.Sublist.cons₂ _
    (List.Sublist.cons _ (List.Sublist.refl _)))

/-- C2: every failing question-generation outcome (SDK throw, unparsable
response, missing or empty `questions` array) and every failing evaluation
outcome (SDK throw, unparsable response) sets a non-null error message and
moves `appState` to `HOME` — so the app neither stays in `LOADING` nor
enters `INTERVIEW` or `REPORT` after a failure. -/
theorem api_failures_return_home :
    (∀ (s : AppModel) (config : InterviewConfig) (o : GenQuestionsOutcome),
       o.isFailure = true →
       (startInterview s config o).error ≠ none ∧
       (startInterview s config o).appState = AppState.HOME) ∧
    (∀ (s : AppModel) (answers : NumMap String)
       (snapshots malpracticeLogs : NumMap (List String)) (o : EvalOutcome),
       s.session ≠ none → o.isFailure = true →
       (handleInterviewComplete s answers snapshots malpracticeLogs o).error ≠ none ∧
       (handleInterviewComplete s answers snapshots malpracticeLogs o).appState = AppState.HOME) := by
  constructor
  · intro s config o ho
    cases o with
    | sdkError => simp [startInterview, startInterviewLoading]
    | parseError => simp [startInterview, startInterviewLoading]
    | parsed questions =>
      cases questions with
      | none => simp [startInterview, startInterviewLoading]
      | some qs =>
        cases qs with
        | nil => simp [startInterview, startInterviewLoading]
        | cons q t => simp [GenQuestionsOutcome.isFailure] at ho
  · intro s answers snapshots malpracticeLogs o hs ho
    obtain ⟨sess, hsess⟩ := Option.ne_none_iff_exists'.mp hs
    cases o with
    | sdkError => simp [handleInterviewComplete, hsess]
    | parseError => simp [handleInterviewComplete, hsess]
    | parsed r => simp [EvalOutcome.isFailure] at ho

/-- Witness for C2 at concrete failing outcomes. -/
theorem api_failures_return_home_witness :
    ((startInterview initialAppModel (handleSubmit "Software Engineer" "Medium")
        GenQuestionsOutcome.sdkError).error ≠ none ∧
     (startInterview initialAppModel (handleSubmit "Software Engineer" "Medium")
        GenQuestionsOutcome.sdkError).appState = AppState.HOME) ∧
    ((handleInterviewComplete sampleAppModel [] [] [] EvalOutcome.parseError).error ≠ none ∧
     (handleInterviewComplete sampleAppModel [] [] [] EvalOutcome.parseError).appState = AppState.HOME) :=
  ⟨api_failures_return_home.1 initialAppModel
      (handleSubmit "Software Engineer" "Medium") GenQuestionsOutcome.sdkError rfl,
   api_failures_return_home.2 sampleAppModel [] [] [] EvalOutcome.parseError
      (by simp [sampleAppModel]) rfl⟩

/-- C4: for every configuration submitted from the Home screen the
question-generation request content is exactly the stated concatenation of
the selected difficulty and role, and the form defaults are Software
Engineer and Medium. -/
theorem question_prompt_assembly (role difficulty : String) :
    questionPrompt (handleSubmit role difficulty) =
      "Generate 5 interview questions for a " ++ difficulty ++ " " ++ role ++ " position." ∧
    homeInitialRole = "Software Engineer" ∧ homeInitialDifficulty = "Medium" :=
  ⟨rfl, rfl, rfl⟩

/-- C10: the system instruction carries the malpractice-analysis suffix
(including the JSON-serialized logs) exactly when at least one question's
log list is non-empty; with every log list empty it is the base evaluation
instruction with the empty string appended. -/
theorem system_instruction_malpractice (config : InterviewConfig)
    (malpracticeLogs : NumMap (List String)) :
    ((∃ logs, logs ∈ malpracticeLogs.values ∧ logs ≠ []) →
       systemInstruction config malpracticeLogs =
         baseSystemInstruction config ++
           (malpracticeExtraHeader ++ jsonStringifyLogs malpracticeLogs)) ∧
    ((∀ logs, logs ∈ malpracticeLogs.values → logs = []) →
       systemInstruction config malpracticeLogs = baseSystemInstruction config ++ "") := by
  constructor
  · rintro ⟨logs, hmem, hne⟩
    have hany : malpracticeLogs.values.any (fun logs => decide (logs.length > 0)) = true :=
      List.any_eq_true.mpr ⟨logs, hmem, by simpa using List.length_pos.mpr hne⟩
    simp [systemInstruction, malpracticeLogText, hany]
  · intro h
    have hany : malpracticeLogs.values.any (fun logs => decide (logs.length > 0)) = false := by
      refine List.any_eq_false.mpr ?_
      intro logs hmem
      simp [h logs hmem]
    simp [systemInstruction, malpracticeLogText, hany]

/-- Witness for C10 with one non-empty log list and with all lists empty. -/
theorem system_instruction_malpractice_witness :
    (systemInstruction (handleSubmit "Software Engineer" "Medium") [(0, ["Phone detected"])] =
       baseSystemInstruction (handleSubmit "Software Engineer" "Medium") ++
         (malpracticeExtraHeader ++ jsonStringifyLogs [(0, ["Phone detected"])])) ∧
    (systemInstruction (handleSubmit "Software Engineer" "Medium") [(0, []), (1, [])] =
       baseSystemInstruction (handleSubmit "Software Engineer" "Medium") ++ "") :=
  ⟨(system_instruction_malpractice (handleSubmit "Software Engineer" "Medium")
      [(0, ["Phone detected"])]).1 ⟨["Phone detected"], by decide, by decide⟩,
   (system_instruction_malpractice (handleSubmit "Software Engineer" "Medium")
      [(0, []), (1, [])]).2 (by decide)⟩

/-- C3 counterexample: the claim says every reachable `appState` rendered
by `renderContent` is one of the three screens, but `startInterview`
first puts the app into the reachable state `LOADING` (its synchronous
prefix, while the generation call is pending), and `renderContent` renders
that as the loading spinner — none of the three screens. -/
theorem loading_renders_fourth_screen :
    (startInterviewLoading initialAppModel).appState = AppState.LOADING ∧
    renderContent (startInterviewLoading initialAppModel) =
      Screen.loadingScreen "Generating your interview questions..." ∧
    Screen.isOneOfThreeScreens (renderContent (startInterviewLoading initialAppModel)) = false :=
  ⟨rfl, rfl, rfl⟩

/-- C3 amended: `appState` has four values; every value other than the
transient `LOADING` is rendered by `renderContent` as one of the three
screens (home/config, live interview capture, report), while `LOADING` is
rendered as the loading spinner with the current loading message. -/
theorem renderContent_three_screens_plus_loading (s : AppModel) :
    (s.appState ≠ AppState.LOADING →
       Screen.isOneOfThreeScreens (renderContent s) = true) ∧
    (s.appState = AppState.LOADING →
       renderContent s = Screen.loadingScreen s.loadingMessage) := by
  constructor
  · intro h
    cases hst : s.appState with
    | HOME => simp [renderContent, hst, Screen.isOneOfThreeScreens]
    | LOADING => exact absurd hst h
    | INTERVIEW =>
      cases hsess : s.session with
      | none => simp [renderContent, hst, hsess, Screen.isOneOfThreeScreens]
      | some sess => simp [renderContent, hst, hsess, Screen.isOneOfThreeScreens]
    | REPORT =>
      cases hsess : s.session with
      | none => simp [renderContent, hst, hsess, Screen.isOneOfThreeScreens]
      | some sess =>
        cases hev : sess.evaluation with
        | none => simp [renderContent, hst, hsess, hev, Screen.isOneOfThreeScreens]
        | some e => simp [renderContent, hst, hsess, hev, Screen.isOneOfThreeScreens]
  · intro h
    simp [renderContent, h]

/-- Witness for the amended C3 at concrete states. -/
theorem renderContent_three_screens_plus_loading_witness :
    Screen.isOneOfThreeScreens (renderContent initialAppModel) = true ∧
    renderContent (startInterviewLoading initialAppModel) =
      Screen.loadingScreen (startInterviewLoading initialAppModel).loadingMessage :=
  ⟨(renderContent_three_screens_plus_loading initialAppModel).1 (by decide),
   (renderContent_three_screens_plus_loading (startInterviewLoading initialAppModel)).2 rfl⟩

/-- C5: starting recording installs the fixed 5000 ms snapshot interval;
while it is installed each tick appends the captured JPEG to the current
question's snapshot list; stopping recording, or advancing to the next
question while recording, clears the interval; and in every reachable
state with recording off no event appends a snapshot. -/
theorem snapshots_only_while_recording (questions : List String)
    (s : InterviewState) (h : InterviewReachable questions s) :
    (s.isRecording = false →
       (handleToggleRecording s).snapshotInterval = some 5000) ∧
    (s.isRecording = true →
       (handleToggleRecording s).snapshotInterval = none) ∧
    (s.isRecording = true →
       (handleNextQuestion questions s).1.snapshotInterval = none) ∧
    (∀ image, s.snapshotInterval.isSome = true →
       (interviewStep questions s (InterviewEvent.snapshotTick image)).1.snapshots =
         s.snapshots.push s.currentQuestionIndex image) ∧
    (s.isRecording = false →
       ∀ e, (interviewStep questions s e).1.snapshots = s.snapshots) := by
  obtain ⟨hsi, hmi⟩ := reachable_intervals h
  refine ⟨?_, ?_, ?_, ?_, ?_⟩
  · intro hr
    simp [handleToggleRecording, hr]
  · intro hr
    simp [handleToggleRecording, hr]
  · intro hr
    simp only [handleNextQuestion, handleToggleRecording, hr, if_true]
    split <;> rfl
  · intro image hsome
    simp [interviewStep, hsome, captureSnapshot]
  · intro hr e
    have hnone : s.snapshotInterval = none := by simp [hsi, hr]
    cases e with
    | toggleRecording =>
      simp [interviewStep, handleToggleRecording_snapshots]
    | snapshotTick image => simp [interviewStep, hnone]
    | malpracticeTick phoneDetected suspiciousGaze reason =>
      simp only [interviewStep]
      split
      · unfold onMalpracticeResult
        split <;> rfl
      · rfl
    | speechResult results => rfl
    | nextQuestion =>
      simp only [interviewStep, handleNextQuestion, hr, Bool.false_eq_true, if_false]
      split <;> rfl

/-- Witness for C5 at the mount state. -/
theorem snapshots_only_while_recording_witness :
    (handleToggleRecording initialInterviewState).snapshotInterval = some 5000 ∧
    (interviewStep ["Tell me about yourself."] initialInterviewState
       (InterviewEvent.snapshotTick "img")).1.snapshots = initialInterviewState.snapshots :=
  ⟨(snapshots_only_while_recording ["Tell me about yourself."] initialInterviewState
      InterviewReachable.init).1 rfl,
   (snapshots_only_while_recording ["Tell me about yourself."] initialInterviewState
      InterviewReachable.init).2.2.2.2 rfl (InterviewEvent.snapshotTick "img")⟩

/-- C6: a speech-recognition result event stores the trimmed concatenation
of all finalized transcript parts (each followed by a space) as the answer
for the current question index, and displays that finalized text followed
by the latest interim part. -/
theorem speech_result_transcription (s : InterviewState)
    (results : List (Bool × String)) :
    (onSpeechResult s results).answers.get s.currentQuestionIndex =
      some (claimedFinalText results) ∧
    (onSpeechResult s results).transcript =
      claimedFinalText results ++ " " ++ claimedLatestInterim results := by
  have h1 : (collectTranscripts results).1 =
      joinParts ((results.filter (fun r => r.1)).map (fun r => r.2 ++ " ")) := by
    simpa [collectTranscripts] using collect_fst results "" ""
  have h2 : (collectTranscripts results).2 =
      ((results.filter (fun r => !r.1)).map (fun r => r.2)).getLastD "" := by
    simpa [collectTranscripts] using collect_snd results "" ""
  constructor
  · simp [onSpeechResult, NumMap.get_set, h1, claimedFinalText]
  · simp [onSpeechResult, h1, h2, claimedFinalText, claimedLatestInterim]

/-- C7: a successful evaluation stores the evaluation in the session and
moves to `REPORT`; `renderContent` renders the report screen exactly when
`appState` is `REPORT` and the session carries an evaluation; in `REPORT`
without an evaluation it renders the Home screen with the error
`Failed to load the report.`. -/
theorem report_rendered_iff_evaluation :
    (∀ (s : AppModel) (sess : InterviewSession) (answers : NumMap String)
       (snapshots malpracticeLogs : NumMap (List String)) (result : EvaluationResult),
       s.session = some sess →
       (handleInterviewComplete s answers snapshots malpracticeLogs
          (EvalOutcome.parsed result)).appState = AppState.REPORT ∧
       (handleInterviewComplete s answers snapshots malpracticeLogs
          (EvalOutcome.parsed result)).session =
         some { sess with answers := answers, snapshots := snapshots,
                          malpracticeLogs := some malpracticeLogs,
                          evaluation := some result }) ∧
    (∀ s : AppModel,
       (∃ e, renderContent s = Screen.reportScreen e) ↔
       (s.appState = AppState.REPORT ∧
        ∃ sess, s.session = some sess ∧ sess.evaluation.isSome = true)) ∧
    (∀ s : AppModel, s.appState = AppState.REPORT →
       (∀ sess, s.session = some sess → sess.evaluation = none →
          renderContent s = Screen.homeScreen (some "Failed to load the report.")) ∧
       (s.session = none →
          renderContent s = Screen.homeScreen (some "Failed to load the report."))) := by
  refine ⟨?_, ?_, ?_⟩
  · intro s sess answers snapshots malpracticeLogs result hsess
    simp [handleInterviewComplete, hsess]
  · intro s
    cases hst : s.appState with
    | HOME => simp [renderContent, hst]
    | LOADING => simp [renderContent, hst]
    | INTERVIEW =>
      cases hsess : s.session with
      | none => simp [renderContent, hst, hsess]
      | some sess => simp [renderContent, hst, hsess]
    | REPORT =>
      cases hsess : s.session with
      | none => simp [renderContent, hst, hsess]
      | some sess =>
        cases hev : sess.evaluation with
        | none => simp [renderContent, hst, hsess, hev]
        | some e => simp [renderContent, hst, hsess, hev]
  · intro s hst
    constructor
    · intro sess hsess hev
      simp [renderContent, hst, hsess, hev]
    · intro hsess
      simp [renderContent, hst, hsess]

/-- Witness for C7: a concrete successful evaluation and the concrete
renderings in state `REPORT` with and without an evaluation. -/
theorem report_rendered_iff_evaluation_witness :
    ((handleInterviewComplete sampleAppModel [(0, "I am a software engineer.")] []
        [] (EvalOutcome.parsed sampleEvaluation)).appState = AppState.REPORT ∧
     (handleInterviewComplete sampleAppModel [(0, "I am a software engineer.")] []
        [] (EvalOutcome.parsed sampleEvaluation)).session =
       some { sampleSession with answers := [(0, "I am a software engineer.")],
                                 snapshots := [], malpracticeLogs := some [],
                                 evaluation := some sampleEvaluation }) ∧
    ((∃ e, renderContent sampleReportModel = Screen.reportScreen e) ↔
     (sampleReportModel.appState = AppState.REPORT ∧
      ∃ sess, sampleReportModel.session = some sess ∧ sess.evaluation.isSome = true)) ∧
    renderContent sampleReportModelNoEvaluation =
      Screen.homeScreen (some "Failed to load the report.") :=
  ⟨report_rendered_iff_evaluation.1 sampleAppModel sampleSession
      [(0, "I am a software engineer.")] [] [] sampleEvaluation rfl,
   report_rendered_iff_evaluation.2.1 sampleReportModel,
   (report_rendered_iff_evaluation.2.2 sampleReportModelNoEvaluation rfl).1
      sampleSession rfl rfl⟩

/-- C8: failures are atomic with respect to the session: a failing
`startInterview` keeps the prior session (a new one is created only from a
non-empty questions array), a failing evaluation leaves the session
unchanged, and answers, snapshots, malpractice logs and the evaluation are
written into the session only on the success path. -/
theorem failure_session_atomicity :
    (∀ (s : AppModel) (config : InterviewConfig) (o : GenQuestionsOutcome),
       o.isFailure = true → (startInterview s config o).session = s.session) ∧
    (∀ (s : AppModel) (answers : NumMap String)
       (snapshots malpracticeLogs : NumMap (List String)) (o : EvalOutcome),
       o.isFailure = true →
       (handleInterviewComplete s answers snapshots malpracticeLogs o).session = s.session) ∧
    (∀ (s : AppModel) (sess : InterviewSession) (answers : NumMap String)
       (snapshots malpracticeLogs : NumMap (List String)) (result : EvaluationResult),
       s.session = some sess →
       (handleInterviewComplete s answers snapshots malpracticeLogs
          (EvalOutcome.parsed result)).session =
         some { sess with answers := answers, snapshots := snapshots,
                          malpracticeLogs := some malpracticeLogs,
                          evaluation := some result }) := by
  refine ⟨?_, ?_, ?_⟩
  · intro s config o ho
    cases o with
    | sdkError => simp [startInterview, startInterviewLoading]
    | parseError => simp [startInterview, startInterviewLoading]
    | parsed questions =>
      cases questions with
      | none => simp [startInterview, startInterviewLoading]
      | some qs =>
        cases qs with
        | nil => simp [startInterview, startInterviewLoading]
        | cons q t => simp [GenQuestionsOutcome.isFailure] at ho
  · intro s answers snapshots malpracticeLogs o ho
    cases hsess : s.session with
    | none => simp [handleInterviewComplete, hsess]
    | some sess =>
      cases o with
      | sdkError => simp [handleInterviewComplete, hsess]
      | parseError => simp [handleInterviewComplete, hsess]
      | parsed r => simp [EvalOutcome.isFailure] at ho
  · intro s sess answers snapshots malpracticeLogs result hsess
    simp [handleInterviewComplete, hsess]

/-- Witness for C8 at concrete failures and a concrete success. -/
theorem failure_session_atomicity_witness :
    (startInterview sampleAppModel (handleSubmit "Data Scientist" "Hard")
       (GenQuestionsOutcome.parsed (some []))).session = sampleAppModel.session ∧
    (handleInterviewComplete sampleAppModel [] [] [] EvalOutcome.sdkError).session =
      sampleAppModel.session ∧
    (handleInterviewComplete sampleAppModel [] [] []
       (EvalOutcome.parsed sampleEvaluation)).session =
      some { sampleSession with answers := [], snapshots := [],
                                malpracticeLogs := some [],
                                evaluation := some sampleEvaluation } :=
  ⟨failure_session_atomicity.1 sampleAppModel (handleSubmit "Data Scientist" "Hard")
      (GenQuestionsOutcome.parsed (some [])) rfl,
   failure_session_atomicity.2.1 sampleAppModel [] [] [] EvalOutcome.sdkError rfl,
   failure_session_atomicity.2.2 sampleAppModel sampleSession [] [] []
      sampleEvaluation rfl⟩

/-- C9: for a non-empty question list the Interview component's question
index starts at 0 and stays within `[0, questions.length - 1]` in every
reachable state; `handleNextQuestion` increments it exactly when it is
strictly below `questions.length - 1`, and at `questions.length - 1` it
instead calls `onInterviewComplete` with the collected answers, snapshots
and malpractice logs. -/
theorem question_index_bounds (questions : List String) (s : InterviewState)
    (hne : questions ≠ []) (h : InterviewReachable questions s) :
    initialInterviewState.currentQuestionIndex = 0 ∧
    s.currentQuestionIndex ≤ questions.length - 1 ∧
    (s.currentQuestionIndex < questions.length - 1 →
       (handleNextQuestion questions s).1.currentQuestionIndex =
         s.currentQuestionIndex + 1 ∧
       (handleNextQuestion questions s).2 = none) ∧
    (s.currentQuestionIndex = questions.length - 1 →
       (handleNextQuestion questions s).1.currentQuestionIndex =
         s.currentQuestionIndex ∧
       (handleNextQuestion questions s).2 =
         some { answers := (handleNextQuestion questions s).1.answers,
                snapshots := (handleNextQuestion questions s).1.snapshots,
                malpracticeLogs := (handleNextQuestion questions s).1.malpracticeLogs }) := by
  have hbound := reachable_index hne h
  refine ⟨rfl, by omega, ?_, ?_⟩
  · intro hlt
    cases hrec : s.isRecording with
    | true =>
      simp [handleNextQuestion, handleToggleRecording, hrec, hlt]
    | false =>
      simp [handleNextQuestion, hrec, hlt]
  · intro hlast
    have hnlt : ¬ s.currentQuestionIndex < questions.length - 1 := by omega
    cases hrec : s.isRecording with
    | true =>
      simp [handleNextQuestion, handleToggleRecording, hrec, hnlt]
    | false =>
      simp [handleNextQuestion, hrec, hnlt]

/-- Witness for C9 at the mount state with a two-question interview. -/
theorem question_index_bounds_witness :
    initialInterviewState.currentQuestionIndex = 0 ∧
    initialInterviewState.currentQuestionIndex ≤ ["Q1", "Q2"].length - 1 ∧
    (handleNextQuestion ["Q1", "Q2"] initialInterviewState).1.currentQuestionIndex =
      initialInterviewState.currentQuestionIndex + 1 ∧
    (handleNextQuestion ["Q1", "Q2"] initialInterviewState).2 = none :=
  ⟨(question_index_bounds ["Q1", "Q2"] initialInterviewState (by decide)
      InterviewReachable.init).1,
   (question_index_bounds ["Q1", "Q2"] initialInterviewState (by decide)
      InterviewReachable.init).2.1,
   (question_index_bounds ["Q1", "Q2"] initialInterviewState (by decide)
      InterviewReachable.init).2.2.1 (by decide)⟩

end MockInterview
